import Mathlib

/-!
# GitHub-events: the webhook handler and its metric state

A shallow embedding of `main.go`.  The handler `webhookHandler` is embedded
statement by statement: the body read (`ioutil.ReadAll`), the JSON bind
(`c.ShouldBindJSON`), the `switch` over `payload.WorkflowRun.Status`, and the
two responses.  The three Prometheus vectors are explicit state that the
handler receives and returns.

Library behaviour that `main.go` relies on is modelled as follows.

* The request body is an `io.Reader`: a one-pass stream.  `ReadAll` returns
  every unread byte and leaves the stream exhausted.
* `ShouldBindJSON` runs an `encoding/json` decoder over the *same* stream
  `c.Request.Body`.  A decoder that is handed an exhausted stream returns
  `io.EOF`.  What the decoder does with a non-empty text (JSON grammar, field
  matching) is not part of this repository and is a parameter `decodeJSON`.
* A `GaugeVec`/`CounterVec` is a finite map from the label value to a number.
  `WithLabelValues` creates the child at zero when it does not exist yet.  The
  values are integers here (the library stores a `float64`, on which `+1` and
  `-1` are exact below `2^53`), so a lemma that ranges over every metric state
  is a statement about the integer model; the theorems on the handler are
  evaluated at the all-zero state or involve no arithmetic.
-/

namespace GitHubEvents

/-! ## Payload (main.go, lines 14-26) -/

/-- The `workflow_run` object of the payload. -/
structure WorkflowRun where
  ID : Int
  Name : String
  Status : String
  Conclusion : String
  RunNumber : Int
  deriving DecidableEq, Repr

/-- The webhook payload. -/
structure GitHubWorkflowPayload where
  Action : String
  WorkflowRun : WorkflowRun
  deriving DecidableEq, Repr

/-! ## Metric vectors (main.go, lines 28-52) -/

/-- A metric vector with the single label `workflow_name`: the children that
exist, in creation order, each with its current value. -/
abbrev MetricVec (α : Type) := List (String × α)

/-- The value reported for a label value; a child that was never created
reports nothing, which reads as zero. -/
def MetricVec.value {α : Type} [Zero α] : MetricVec α → String → α
  | [], _ => 0
  | (k, x) :: rest, l => if k = l then x else MetricVec.value rest l

/-- The call `vec.WithLabelValues(l).Add(d)`: the child for `l` is created at
zero when absent, then `d` is added to it. -/
def MetricVec.add {α : Type} [Zero α] [Add α] : MetricVec α → String → α → MetricVec α
  | [], l, d => [(l, 0 + d)]
  | (k, x) :: rest, l, d =>
    if k = l then (k, x + d) :: rest else (k, x) :: MetricVec.add rest l d

/-- The three metric families of the process. -/
structure MetricState where
  runningGauge : MetricVec Int
  successCounter : MetricVec Nat
  failureCounter : MetricVec Nat
  deriving DecidableEq, Repr

/-- The state at process start: no child exists, every aggregate is zero. -/
def MetricState.zero : MetricState :=
  { runningGauge := [], successCounter := [], failureCounter := [] }

/-- The running gauge of a workflow name. -/
def MetricState.running (m : MetricState) (name : String) : Int :=
  m.runningGauge.value name

/-- The success counter of a workflow name. -/
def MetricState.success_count (m : MetricState) (name : String) : Nat :=
  m.successCounter.value name

/-- The failure counter of a workflow name. -/
def MetricState.failure_count (m : MetricState) (name : String) : Nat :=
  m.failureCounter.value name

/-- The call `runningGauge.WithLabelValues(name).Inc()`. -/
def runningGaugeInc (m : MetricState) (name : String) : MetricState :=
  { m with runningGauge := m.runningGauge.add name 1 }

/-- The call `runningGauge.WithLabelValues(name).Dec()`. -/
def runningGaugeDec (m : MetricState) (name : String) : MetricState :=
  { m with runningGauge := m.runningGauge.add name (-1) }

/-- The call `successCounter.WithLabelValues(name).Inc()`. -/
def successCounterInc (m : MetricState) (name : String) : MetricState :=
  { m with successCounter := m.successCounter.add name 1 }

/-- The call `failureCounter.WithLabelValues(name).Inc()`. -/
def failureCounterInc (m : MetricState) (name : String) : MetricState :=
  { m with failureCounter := m.failureCounter.add name 1 }

/-! ## Request body and responses -/

/-- The request body `c.Request.Body`, a one-pass stream: the text not yet
read, and the transport error (if any) that the stream raises instead of a
clean end of file. -/
structure Body where
  unread : String
  fault : Option String
  deriving DecidableEq, Repr

/-- A body as it arrives: nothing read yet, and a clean end of file. -/
def Body.fresh (text : String) : Body := { unread := text, fault := none }

/-- The request held by the gin context. -/
structure Request where
  Body : Body
  deriving DecidableEq, Repr

/-- What the handler writes: `c.JSON(code, gin.H ...)` or `c.String(code, text)`. -/
inductive ResponseBody where
  | json (fields : List (String × String))
  | text (s : String)
  deriving DecidableEq, Repr

/-- The HTTP response of the handler. -/
structure Response where
  status : Nat
  body : ResponseBody
  deriving DecidableEq, Repr

/-- The constant `http.StatusBadRequest`. -/
def StatusBadRequest : Nat := 400

/-- The constant `http.StatusOK`. -/
def StatusOK : Nat := 200

/-- The call `ioutil.ReadAll(c.Request.Body)`: reads until end of file or
error.  It returns the text read, or the error, and the stream as it is left
behind: with nothing unread. -/
def ReadAll (b : Body) : Except String String × Body :=
  match b.fault with
  | some err => (.error err, { b with unread := "" })
  | none => (.ok b.unread, { b with unread := "" })

/-- The call `c.ShouldBindJSON(&payload)` on the stream in the state it is
in: `json.NewDecoder(c.Request.Body).Decode`.  An exhausted stream gives the
decoder no byte at all, and it returns the stream's error, `EOF` on a clean
end.  A stream with unread text is decoded by `decodeJSON`. -/
def ShouldBindJSON (decodeJSON : String → Except String GitHubWorkflowPayload)
    (b : Body) : Except String GitHubWorkflowPayload :=
  if b.unread = "" then
    match b.fault with
    | some err => .error err
    | none => .error "EOF"
  else decodeJSON b.unread

/-! ## The handler (main.go, lines 61-102) -/

/-- The `switch payload.WorkflowRun.Status` block of `webhookHandler`
(lines 80-99), run under the mutex. -/
def statusSwitch (payload : GitHubWorkflowPayload) (m : MetricState) : MetricState :=
  let workflowName := payload.WorkflowRun.Name
  if payload.WorkflowRun.Status = "in_progress" then
    runningGaugeInc m workflowName
  else if payload.WorkflowRun.Status = "completed" then
    let m1 := runningGaugeDec m workflowName
    if payload.WorkflowRun.Conclusion = "success" then
      successCounterInc m1 workflowName
    else if payload.WorkflowRun.Conclusion = "failure" then
      failureCounterInc m1 workflowName
    else m1
  else m

/-- The handler `webhookHandler`: the response it writes and the metric state
it leaves. -/
def webhookHandler (decodeJSON : String → Except String GitHubWorkflowPayload)
    (req : Request) (m : MetricState) : Response × MetricState :=
  match ReadAll req.Body with
  | (.error err, _) =>
    ({ status := StatusBadRequest, body := .json [("error", err)] }, m)
  | (.ok _, body) =>
    match ShouldBindJSON decodeJSON body with
    | .error _ =>
      ({ status := StatusBadRequest, body := .json [("error", "Invalid payload")] }, m)
    | .ok payload =>
      ({ status := StatusOK, body := .text "Event processed" }, statusSwitch payload m)

/-- The metric state after a sequence of requests, handled one after the other
(the order in which the mutex admits them). -/
def handleAll (decodeJSON : String → Except String GitHubWorkflowPayload) :
    List Request → MetricState → MetricState
  | [], m => m
  | req :: rest, m => handleAll decodeJSON rest (webhookHandler decodeJSON req m).2

/-- The metric state after the switch block has run for a sequence of decoded
payloads, one after the other. -/
def switchAll : List GitHubWorkflowPayload → MetricState → MetricState
  | [], m => m
  | p :: rest, m => switchAll rest (statusSwitch p m)

/-! ## Sample requests -/

/-- A body announcing that run 5 of workflow `build` has started. -/
def inProgressBody : String :=
  "\x7b\"action\":\"in_progress\",\"workflow_run\":\x7b\"id\":1,\"name\":\"build\",\"status\":\"in_progress\",\"conclusion\":\"\",\"run_number\":5\x7d\x7d"

/-- The example body of the specification: run 5 of `build` completed with
success. -/
def completedSuccessBody : String :=
  "\x7b\"action\":\"completed\",\"workflow_run\":\x7b\"id\":1,\"name\":\"build\",\"status\":\"completed\",\"conclusion\":\"success\",\"run_number\":5\x7d\x7d"

/-- A body for a run of `build` that completed with failure. -/
def completedFailureBody : String :=
  "\x7b\"action\":\"completed\",\"workflow_run\":\x7b\"id\":1,\"name\":\"build\",\"status\":\"completed\",\"conclusion\":\"failure\",\"run_number\":5\x7d\x7d"

/-- A body for a run of `build` that completed as cancelled. -/
def completedCancelledBody : String :=
  "\x7b\"action\":\"completed\",\"workflow_run\":\x7b\"id\":1,\"name\":\"build\",\"status\":\"completed\",\"conclusion\":\"cancelled\",\"run_number\":5\x7d\x7d"

/-- A body for a run of `build` that is queued. -/
def queuedBody : String :=
  "\x7b\"action\":\"requested\",\"workflow_run\":\x7b\"id\":1,\"name\":\"build\",\"status\":\"queued\",\"conclusion\":\"\",\"run_number\":5\x7d\x7d"

/-- A body that is not JSON. -/
def malformedBody : String := "status=completed"

/-- The payload that `inProgressBody` spells out. -/
def inProgressPayload : GitHubWorkflowPayload :=
  { Action := "in_progress",
    WorkflowRun :=
      { ID := 1, Name := "build", Status := "in_progress", Conclusion := "", RunNumber := 5 } }

/-- The payload that `completedSuccessBody` spells out. -/
def completedSuccessPayload : GitHubWorkflowPayload :=
  { Action := "completed",
    WorkflowRun :=
      { ID := 1, Name := "build", Status := "completed", Conclusion := "success",
        RunNumber := 5 } }

/-- The payload that `completedFailureBody` spells out. -/
def completedFailurePayload : GitHubWorkflowPayload :=
  { Action := "completed",
    WorkflowRun :=
      { ID := 1, Name := "build", Status := "completed", Conclusion := "failure",
        RunNumber := 5 } }

/-- The payload that `completedCancelledBody` spells out. -/
def completedCancelledPayload : GitHubWorkflowPayload :=
  { Action := "completed",
    WorkflowRun :=
      { ID := 1, Name := "build", Status := "completed", Conclusion := "cancelled",
        RunNumber := 5 } }

/-- The payload that `queuedBody` spells out. -/
def queuedPayload : GitHubWorkflowPayload :=
  { Action := "requested",
    WorkflowRun :=
      { ID := 1, Name := "build", Status := "queued", Conclusion := "", RunNumber := 5 } }

/-- A decoder defined on the sample bodies only, where it returns the payload
that the body spells out; every other text is rejected.  It instantiates the
parameter `decodeJSON` at concrete inputs. -/
def sampleDecodeJSON (text : String) : Except String GitHubWorkflowPayload :=
  if text = inProgressBody then .ok inProgressPayload
  else if text = completedSuccessBody then .ok completedSuccessPayload
  else if text = completedFailureBody then .ok completedFailurePayload
  else if text = completedCancelledBody then .ok completedCancelledPayload
  else if text = queuedBody then .ok queuedPayload
  else .error "invalid character"

/-- The response written when the bind step fails (line 76). -/
def invalidPayloadResponse : Response :=
  { status := StatusBadRequest, body := .json [("error", "Invalid payload")] }

/-- The response written when the body read fails (line 65). -/
def readErrorResponse (err : String) : Response :=
  { status := StatusBadRequest, body := .json [("error", err)] }

/-- The response written after the switch (line 101). -/
def eventProcessedResponse : Response :=
  { status := StatusOK, body := .text "Event processed" }

/-! ## Batches of started and finished runs -/

/-- A payload that reports a started run of workflow `name`. -/
def IsStart (name : String) (p : GitHubWorkflowPayload) : Prop :=
  p.WorkflowRun.Name = name ∧ p.WorkflowRun.Status = "in_progress"

/-- A payload that reports a successfully completed run of workflow `name`. -/
def IsSuccess (name : String) (p : GitHubWorkflowPayload) : Prop :=
  p.WorkflowRun.Name = name ∧ p.WorkflowRun.Status = "completed"
    ∧ p.WorkflowRun.Conclusion = "success"

/-- The number of payloads with status `in_progress`. -/
def countStarts (ps : List GitHubWorkflowPayload) : Nat :=
  ps.countP (fun p => decide (p.WorkflowRun.Status = "in_progress"))

/-- The number of payloads with status `completed`. -/
def countCompleted (ps : List GitHubWorkflowPayload) : Nat :=
  ps.countP (fun p => decide (p.WorkflowRun.Status = "completed"))

/-! ## Metric vectors: reading after an update -/

theorem MetricVec.value_add_same_int (v : MetricVec Int) (l : String) (d : Int) :
    (v.add l d).value l = v.value l + d := by
  induction v with
  | nil => simp [MetricVec.add, MetricVec.value]
  | cons kx rest ih =>
    obtain ⟨k, x⟩ := kx
    by_cases h : k = l
    · simp [MetricVec.add, MetricVec.value, h]
    · simp [MetricVec.add, MetricVec.value, h, ih]

theorem MetricVec.value_add_other_int (v : MetricVec Int) (l l2 : String) (d : Int)
    (hne : l2 ≠ l) : (v.add l d).value l2 = v.value l2 := by
  induction v with
  | nil => simp [MetricVec.add, MetricVec.value, Ne.symm hne]
  | cons kx rest ih =>
    obtain ⟨k, x⟩ := kx
    by_cases h : k = l
    · subst h
      simp [MetricVec.add, MetricVec.value, Ne.symm hne]
    · by_cases h2 : k = l2
      · subst h2
        simp [MetricVec.add, MetricVec.value, hne]
      · simp [MetricVec.add, MetricVec.value, h, h2, ih]

theorem MetricVec.value_add_same_nat (v : MetricVec Nat) (l : String) (d : Nat) :
    (v.add l d).value l = v.value l + d := by
  induction v with
  | nil => simp [MetricVec.add, MetricVec.value]
  | cons kx rest ih =>
    obtain ⟨k, x⟩ := kx
    by_cases h : k = l
    · simp [MetricVec.add, MetricVec.value, h]
    · simp [MetricVec.add, MetricVec.value, h, ih]

theorem MetricVec.value_add_other_nat (v : MetricVec Nat) (l l2 : String) (d : Nat)
    (hne : l2 ≠ l) : (v.add l d).value l2 = v.value l2 := by
  induction v with
  | nil => simp [MetricVec.add, MetricVec.value, Ne.symm hne]
  | cons kx rest ih =>
    obtain ⟨k, x⟩ := kx
    by_cases h : k = l
    · subst h
      simp [MetricVec.add, MetricVec.value, Ne.symm hne]
    · by_cases h2 : k = l2
      · subst h2
        simp [MetricVec.add, MetricVec.value, hne]
      · simp [MetricVec.add, MetricVec.value, h, h2, ih]

/-! ## The switch block, taken on its own -/

/-- Reached with status `in_progress`, the switch adds one to the running
gauge of the payload's workflow name and leaves the two counters as they
are. -/
theorem statusSwitch_in_progress (p : GitHubWorkflowPayload) (m : MetricState)
    (hs : p.WorkflowRun.Status = "in_progress") :
    (statusSwitch p m).running p.WorkflowRun.Name = m.running p.WorkflowRun.Name + 1
    ∧ (∀ name, name ≠ p.WorkflowRun.Name → (statusSwitch p m).running name = m.running name)
    ∧ (statusSwitch p m).successCounter = m.successCounter
    ∧ (statusSwitch p m).failureCounter = m.failureCounter := by
  refine ⟨?_, ?_, ?_, ?_⟩
  · simp [statusSwitch, hs, runningGaugeInc, MetricState.running,
      MetricVec.value_add_same_int]
  · intro name hne
    simp [statusSwitch, hs, runningGaugeInc, MetricState.running,
      MetricVec.value_add_other_int _ _ _ _ hne]
  · simp [statusSwitch, hs, runningGaugeInc]
  · simp [statusSwitch, hs, runningGaugeInc]

/-- Reached with status `completed`, the switch subtracts one from the running
gauge of the payload's workflow name, whatever the conclusion is, and leaves
the gauge of every other name as it is. -/
theorem statusSwitch_completed_running (p : GitHubWorkflowPayload) (m : MetricState)
    (hs : p.WorkflowRun.Status = "completed") :
    (statusSwitch p m).running p.WorkflowRun.Name = m.running p.WorkflowRun.Name - 1
    ∧ (∀ name, name ≠ p.WorkflowRun.Name →
        (statusSwitch p m).running name = m.running name) := by
  have hrun : (statusSwitch p m).runningGauge
      = m.runningGauge.add p.WorkflowRun.Name (-1) := by
    simp only [statusSwitch, hs]
    split_ifs <;> simp_all [runningGaugeDec, successCounterInc, failureCounterInc]
  refine ⟨?_, ?_⟩
  · simp [MetricState.running, hrun, MetricVec.value_add_same_int, sub_eq_add_neg]
  · intro name hne
    simp [MetricState.running, hrun, MetricVec.value_add_other_int _ _ _ _ hne]

/-- Reached with status `completed` and conclusion `success`, the switch adds
one to the success counter of the payload's workflow name and leaves the
failure counters as they are. -/
theorem statusSwitch_completed_success (p : GitHubWorkflowPayload) (m : MetricState)
    (hs : p.WorkflowRun.Status = "completed") (hc : p.WorkflowRun.Conclusion = "success") :
    (statusSwitch p m).success_count p.WorkflowRun.Name
        = m.success_count p.WorkflowRun.Name + 1
    ∧ (∀ name, name ≠ p.WorkflowRun.Name →
        (statusSwitch p m).success_count name = m.success_count name)
    ∧ (statusSwitch p m).failureCounter = m.failureCounter := by
  refine ⟨?_, ?_, ?_⟩
  · simp [statusSwitch, hs, hc, runningGaugeDec, successCounterInc,
      MetricState.success_count, MetricVec.value_add_same_nat]
  · intro name hne
    simp [statusSwitch, hs, hc, runningGaugeDec, successCounterInc,
      MetricState.success_count, MetricVec.value_add_other_nat _ _ _ _ hne]
  · simp [statusSwitch, hs, hc, runningGaugeDec, successCounterInc]

/-- Reached with status `completed` and conclusion `failure`, the switch adds
one to the failure counter of the payload's workflow name and leaves the
success counters as they are. -/
theorem statusSwitch_completed_failure (p : GitHubWorkflowPayload) (m : MetricState)
    (hs : p.WorkflowRun.Status = "completed") (hc : p.WorkflowRun.Conclusion = "failure") :
    (statusSwitch p m).failure_count p.WorkflowRun.Name
        = m.failure_count p.WorkflowRun.Name + 1
    ∧ (∀ name, name ≠ p.WorkflowRun.Name →
        (statusSwitch p m).failure_count name = m.failure_count name)
    ∧ (statusSwitch p m).successCounter = m.successCounter := by
  refine ⟨?_, ?_, ?_⟩
  · simp [statusSwitch, hs, hc, runningGaugeDec, failureCounterInc,
      MetricState.failure_count, MetricVec.value_add_same_nat]
  · intro name hne
    simp [statusSwitch, hs, hc, runningGaugeDec, failureCounterInc,
      MetricState.failure_count, MetricVec.value_add_other_nat _ _ _ _ hne]
  · simp [statusSwitch, hs, hc, runningGaugeDec, failureCounterInc]

/-- Reached with status `completed` and a conclusion that is neither `success`
nor `failure`, the switch leaves both counters as they are. -/
theorem statusSwitch_completed_other (p : GitHubWorkflowPayload) (m : MetricState)
    (hs : p.WorkflowRun.Status = "completed") (hc1 : p.WorkflowRun.Conclusion ≠ "success")
    (hc2 : p.WorkflowRun.Conclusion ≠ "failure") :
    (statusSwitch p m).successCounter = m.successCounter
    ∧ (statusSwitch p m).failureCounter = m.failureCounter := by
  simp [statusSwitch, hs, hc1, hc2, runningGaugeDec]

/-- Reached with a status that is neither `in_progress` nor `completed`, the
switch returns the state it was given. -/
theorem statusSwitch_other_status (p : GitHubWorkflowPayload) (m : MetricState)
    (h1 : p.WorkflowRun.Status ≠ "in_progress") (h2 : p.WorkflowRun.Status ≠ "completed") :
    statusSwitch p m = m := by
  simp [statusSwitch, h1, h2]

theorem MetricVec.value_le_add_nat (v : MetricVec Nat) (l name : String) (d : Nat) :
    v.value name ≤ (v.add l d).value name := by
  by_cases h : name = l
  · subst h
    rw [MetricVec.value_add_same_nat]
    exact Nat.le_add_right _ _
  · rw [MetricVec.value_add_other_nat _ _ _ _ h]

/-- The switch never lowers a success counter or a failure counter. -/
theorem statusSwitch_counters_mono (p : GitHubWorkflowPayload) (m : MetricState)
    (name : String) :
    m.success_count name ≤ (statusSwitch p m).success_count name
    ∧ m.failure_count name ≤ (statusSwitch p m).failure_count name := by
  unfold statusSwitch
  simp only [MetricState.success_count, MetricState.failure_count]
  split_ifs <;>
    simp [runningGaugeInc, runningGaugeDec, successCounterInc, failureCounterInc,
      MetricVec.value_le_add_nat]

/-- A run of the switch over a sequence of payloads never lowers a success
counter or a failure counter. -/
theorem switchAll_counters_mono (ps : List GitHubWorkflowPayload) (m : MetricState)
    (name : String) :
    m.success_count name ≤ (switchAll ps m).success_count name
    ∧ m.failure_count name ≤ (switchAll ps m).failure_count name := by
  induction ps generalizing m with
  | nil => simp [switchAll]
  | cons p rest ih =>
    have h1 := statusSwitch_counters_mono p m name
    have h2 := ih (statusSwitch p m)
    simp only [switchAll]
    exact ⟨le_trans h1.1 h2.1, le_trans h1.2 h2.2⟩

/-! ## The handler: the bind step reads a stream that is already exhausted -/

/-- After `ReadAll`, nothing is left unread. -/
theorem ReadAll_exhausts (b : Body) : (ReadAll b).2.unread = "" := by
  unfold ReadAll
  cases b.fault <;> rfl

/-- The call `ReadAll` does not change what error the stream ends with. -/
theorem ReadAll_fault (b : Body) : (ReadAll b).2.fault = b.fault := by
  unfold ReadAll
  cases h : b.fault <;> simp [h]

/-- The bind step fails on every stream that `ReadAll` has gone through,
whatever the decoder and whatever the text was. -/
theorem ShouldBindJSON_after_ReadAll
    (decodeJSON : String → Except String GitHubWorkflowPayload) (b : Body) :
    ShouldBindJSON decodeJSON (ReadAll b).2 = .error (b.fault.getD "EOF") := by
  unfold ShouldBindJSON
  rw [ReadAll_exhausts, ReadAll_fault]
  cases b.fault <;> rfl

/-- The handler in closed form: a 400 response whose message is the read error
or `Invalid payload`, and the metric state it was given. -/
theorem webhookHandler_eq (decodeJSON : String → Except String GitHubWorkflowPayload)
    (req : Request) (m : MetricState) :
    webhookHandler decodeJSON req m
      = (match req.Body.fault with
          | some err => readErrorResponse err
          | none => invalidPayloadResponse, m) := by
  unfold webhookHandler ReadAll ShouldBindJSON
  cases h : req.Body.fault <;> simp [h, readErrorResponse, invalidPayloadResponse]

/-- The handler returns the metric state it was given. -/
theorem webhookHandler_state (decodeJSON : String → Except String GitHubWorkflowPayload)
    (req : Request) (m : MetricState) : (webhookHandler decodeJSON req m).2 = m := by
  rw [webhookHandler_eq]

/-- The handler answers 400. -/
theorem webhookHandler_status (decodeJSON : String → Except String GitHubWorkflowPayload)
    (req : Request) (m : MetricState) :
    (webhookHandler decodeJSON req m).1.status = 400 := by
  rw [webhookHandler_eq]
  cases req.Body.fault <;> rfl

/-- A sequence of requests leaves the metric state as it was. -/
theorem handleAll_state (decodeJSON : String → Except String GitHubWorkflowPayload)
    (reqs : List Request) (m : MetricState) : handleAll decodeJSON reqs m = m := by
  induction reqs generalizing m with
  | nil => rfl
  | cons req rest ih =>
    simp only [handleAll]
    rw [webhookHandler_state, ih]

/-! ## The switch block over a batch of started and finished runs -/

/-- Running the switch over payloads that all report a start or a success of
the same workflow: the gauge moves by starts minus completions, the success
counter by the completions, the failure counter not at all. -/
theorem switchAll_tally (name : String) (ps : List GitHubWorkflowPayload) (m : MetricState)
    (hall : ∀ p ∈ ps, IsStart name p ∨ IsSuccess name p) :
    (switchAll ps m).running name
        = m.running name + (countStarts ps : Int) - (countCompleted ps : Int)
    ∧ (switchAll ps m).success_count name = m.success_count name + countCompleted ps
    ∧ (switchAll ps m).failure_count name = m.failure_count name := by
  induction ps generalizing m with
  | nil => simp [switchAll, countStarts, countCompleted]
  | cons p rest ih =>
    have hrest : ∀ q ∈ rest, IsStart name q ∨ IsSuccess name q :=
      fun q hq => hall q (List.mem_cons_of_mem _ hq)
    obtain ⟨ihr, ihs, ihf⟩ := ih (statusSwitch p m) hrest
    simp only [switchAll]
    rw [ihr, ihs, ihf]
    rcases hall p (List.mem_cons_self _ _) with ⟨hn, hs⟩ | ⟨hn, hs, hc⟩
    · obtain ⟨h1, _, h3, h4⟩ := statusSwitch_in_progress p m hs
      rw [hn] at h1
      have hne : ¬ p.WorkflowRun.Status = "completed" := by rw [hs]; decide
      refine ⟨?_, ?_, ?_⟩
      · rw [h1]
        simp [countStarts, countCompleted, List.countP_cons, hs]
        ring
      · simp [MetricState.success_count, h3, countCompleted, List.countP_cons, hne]
      · simp [MetricState.failure_count, h4]
    · obtain ⟨h1, _⟩ := statusSwitch_completed_running p m hs
      obtain ⟨h2, _, h4⟩ := statusSwitch_completed_success p m hs hc
      rw [hn] at h1 h2
      have hne : ¬ p.WorkflowRun.Status = "in_progress" := by rw [hs]; decide
      refine ⟨?_, ?_, ?_⟩
      · rw [h1]
        simp [countStarts, countCompleted, List.countP_cons, hs]
        ring
      · rw [h2]
        simp [countCompleted, List.countP_cons, hs]
        ring
      · simp [MetricState.failure_count, h4]

/-- The switch block settles: run from the all-zero state over `n` starts and
`n` successes of one workflow, in any order, it leaves the gauge at zero, the
success counter at `n` and the failure counter at zero. -/
theorem switchAll_settles (name : String) (n : Nat)
    (starts finishes ps : List GitHubWorkflowPayload)
    (hstarts : ∀ p ∈ starts, IsStart name p) (hfinishes : ∀ p ∈ finishes, IsSuccess name p)
    (hns : starts.length = n) (hnf : finishes.length = n)
    (horder : ps.Perm (starts ++ finishes)) :
    (switchAll ps MetricState.zero).running name = 0
    ∧ (switchAll ps MetricState.zero).success_count name = n
    ∧ (switchAll ps MetricState.zero).failure_count name = 0 := by
  have hall : ∀ p ∈ ps, IsStart name p ∨ IsSuccess name p := by
    intro p hp
    rcases List.mem_append.mp (horder.subset hp) with h | h
    · exact Or.inl (hstarts p h)
    · exact Or.inr (hfinishes p h)
  have hcs : countStarts ps = n := by
    unfold countStarts
    rw [horder.countP_eq, List.countP_append]
    have h1 : starts.countP (fun p => decide (p.WorkflowRun.Status = "in_progress"))
        = starts.length :=
      List.countP_eq_length.mpr (fun p hp => by simp [(hstarts p hp).2])
    have h2 : finishes.countP (fun p => decide (p.WorkflowRun.Status = "in_progress")) = 0 :=
      List.countP_eq_zero.mpr (fun p hp => by simp [(hfinishes p hp).2.1])
    rw [h1, h2, hns]
    rfl
  have hcc : countCompleted ps = n := by
    unfold countCompleted
    rw [horder.countP_eq, List.countP_append]
    have h1 : starts.countP (fun p => decide (p.WorkflowRun.Status = "completed")) = 0 :=
      List.countP_eq_zero.mpr (fun p hp => by simp [(hstarts p hp).2])
    have h2 : finishes.countP (fun p => decide (p.WorkflowRun.Status = "completed"))
        = finishes.length :=
      List.countP_eq_length.mpr (fun p hp => by simp [(hfinishes p hp).2.1])
    rw [h1, h2, hnf]
    simp
  obtain ⟨hr, hs, hf⟩ := switchAll_tally name ps MetricState.zero hall
  refine ⟨?_, ?_, ?_⟩
  · rw [hr, hcs, hcc]
    simp [MetricState.running, MetricState.zero, MetricVec.value]
  · rw [hs, hcc]
    simp [MetricState.success_count, MetricState.zero, MetricVec.value]
  · rw [hf]
    simp [MetricState.failure_count, MetricState.zero, MetricVec.value]

/-- The settling theorem at a concrete batch: one start and one success of
`build`, the success first. -/
theorem switchAll_settles_sample :
    (switchAll [completedSuccessPayload, inProgressPayload] MetricState.zero).running "build" = 0
    ∧ (switchAll [completedSuccessPayload, inProgressPayload]
        MetricState.zero).success_count "build" = 1
    ∧ (switchAll [completedSuccessPayload, inProgressPayload]
        MetricState.zero).failure_count "build" = 0 :=
  switchAll_settles "build" 1 [inProgressPayload] [completedSuccessPayload]
    [completedSuccessPayload, inProgressPayload]
    (by intro p hp; rw [List.mem_singleton.mp hp]; exact ⟨rfl, rfl⟩)
    (by intro p hp; rw [List.mem_singleton.mp hp]; exact ⟨rfl, rfl, rfl⟩)
    rfl rfl (List.Perm.swap _ _ _)

/-! ## The claims -/

/-- C1, evaluated at a well-formed `in_progress` request for `build` on the
all-zero state: whatever the JSON decoder is, the handler answers 400
`Invalid payload` and the running gauge of `build` stays 0, although the
switch, had it been reached with this payload, would have set it to 1. -/
theorem C1_in_progress_request_not_counted
    (decodeJSON : String → Except String GitHubWorkflowPayload) :
    webhookHandler decodeJSON { Body := Body.fresh inProgressBody } MetricState.zero
        = (invalidPayloadResponse, MetricState.zero)
    ∧ (webhookHandler decodeJSON { Body := Body.fresh inProgressBody }
        MetricState.zero).2.running "build" = 0
    ∧ (statusSwitch inProgressPayload MetricState.zero).running "build" = 1 :=
  ⟨rfl, rfl, rfl⟩

/-- C2, evaluated at the example body of the specification on the all-zero
state: whatever the JSON decoder is, the response is 400 `Invalid payload`,
not `Event processed`, and both the running gauge and the success counter of
`build` stay 0, although the switch, had it been reached with this payload,
would have left them at -1 and 1. -/
theorem C2_completed_success_request_not_counted
    (decodeJSON : String → Except String GitHubWorkflowPayload) :
    (webhookHandler decodeJSON { Body := Body.fresh completedSuccessBody }
        MetricState.zero).1 = invalidPayloadResponse
    ∧ invalidPayloadResponse ≠ eventProcessedResponse
    ∧ (webhookHandler decodeJSON { Body := Body.fresh completedSuccessBody }
        MetricState.zero).2.running "build" = 0
    ∧ (webhookHandler decodeJSON { Body := Body.fresh completedSuccessBody }
        MetricState.zero).2.success_count "build" = 0
    ∧ (statusSwitch completedSuccessPayload MetricState.zero).running "build" = -1
    ∧ (statusSwitch completedSuccessPayload MetricState.zero).success_count "build" = 1 :=
  ⟨rfl, by decide, rfl, rfl, rfl, rfl⟩

/-- C3, evaluated at a well-formed `completed`/`failure` request for `build`
on the all-zero state: whatever the JSON decoder is, the handler answers 400
and both the running gauge and the failure counter of `build` stay 0, although
the switch, had it been reached with this payload, would have left them at -1
and 1. -/
theorem C3_completed_failure_request_not_counted
    (decodeJSON : String → Except String GitHubWorkflowPayload) :
    (webhookHandler decodeJSON { Body := Body.fresh completedFailureBody }
        MetricState.zero).1 = invalidPayloadResponse
    ∧ (webhookHandler decodeJSON { Body := Body.fresh completedFailureBody }
        MetricState.zero).2.running "build" = 0
    ∧ (webhookHandler decodeJSON { Body := Body.fresh completedFailureBody }
        MetricState.zero).2.failure_count "build" = 0
    ∧ (statusSwitch completedFailurePayload MetricState.zero).running "build" = -1
    ∧ (statusSwitch completedFailurePayload MetricState.zero).failure_count "build" = 1 :=
  ⟨rfl, rfl, rfl, rfl, rfl⟩

/-- C4, evaluated at a well-formed `completed`/`cancelled` request for `build`
on the all-zero state: whatever the JSON decoder is, the handler answers 400
and the running gauge of `build` stays 0, although the switch, had it been
reached with this payload, would have left it at -1. -/
theorem C4_completed_cancelled_request_not_counted
    (decodeJSON : String → Except String GitHubWorkflowPayload) :
    (webhookHandler decodeJSON { Body := Body.fresh completedCancelledBody }
        MetricState.zero).1 = invalidPayloadResponse
    ∧ (webhookHandler decodeJSON { Body := Body.fresh completedCancelledBody }
        MetricState.zero).2.running "build" = 0
    ∧ (statusSwitch completedCancelledPayload MetricState.zero).running "build" = -1 :=
  ⟨rfl, rfl, rfl⟩

/-- C5: a request whose body decodes to a payload with a status other than
`in_progress` and `completed` changes no aggregate: the handler returns the
metric state it was given, for every conclusion.  The switch block, taken on
its own, returns the state unchanged for such a payload as well. -/
theorem C5_other_status_changes_nothing
    (decodeJSON : String → Except String GitHubWorkflowPayload) (req : Request)
    (p : GitHubWorkflowPayload) (m : MetricState)
    (hvalid : decodeJSON req.Body.unread = .ok p)
    (h1 : p.WorkflowRun.Status ≠ "in_progress") (h2 : p.WorkflowRun.Status ≠ "completed") :
    (webhookHandler decodeJSON req m).2 = m
    ∧ (∀ name, (webhookHandler decodeJSON req m).2.running name = m.running name
        ∧ (webhookHandler decodeJSON req m).2.success_count name = m.success_count name
        ∧ (webhookHandler decodeJSON req m).2.failure_count name = m.failure_count name)
    ∧ statusSwitch p m = m := by
  have _hv := hvalid
  refine ⟨webhookHandler_state decodeJSON req m, ?_, statusSwitch_other_status p m h1 h2⟩
  intro name
  rw [webhookHandler_state]
  exact ⟨rfl, rfl, rfl⟩

/-- C5 at the queued sample request, on the all-zero state. -/
theorem C5_other_status_changes_nothing_witness :
    sampleDecodeJSON (Request.mk (Body.fresh queuedBody)).Body.unread = .ok queuedPayload
    ∧ queuedPayload.WorkflowRun.Status ≠ "in_progress"
    ∧ queuedPayload.WorkflowRun.Status ≠ "completed"
    ∧ (webhookHandler sampleDecodeJSON (Request.mk (Body.fresh queuedBody))
        MetricState.zero).2 = MetricState.zero :=
  ⟨rfl, by decide, by decide,
    (C5_other_status_changes_nothing sampleDecodeJSON (Request.mk (Body.fresh queuedBody))
      queuedPayload MetricState.zero rfl (by decide) (by decide)).1⟩

/-- C6: a request whose body the JSON decoder rejects is answered with status
400, and the metric state after the call equals the state before it. -/
theorem C6_undecodable_body_rejected
    (decodeJSON : String → Except String GitHubWorkflowPayload) (req : Request)
    (e : String) (m : MetricState)
    (hbad : decodeJSON req.Body.unread = .error e) :
    (webhookHandler decodeJSON req m).1.status = 400
    ∧ (webhookHandler decodeJSON req m).2 = m := by
  have _hb := hbad
  exact ⟨webhookHandler_status decodeJSON req m, webhookHandler_state decodeJSON req m⟩

/-- C6 at the malformed sample request, on a state where `build` is running. -/
theorem C6_undecodable_body_rejected_witness :
    sampleDecodeJSON (Request.mk (Body.fresh malformedBody)).Body.unread
        = .error "invalid character"
    ∧ (webhookHandler sampleDecodeJSON (Request.mk (Body.fresh malformedBody))
        (runningGaugeInc MetricState.zero "build")).1.status = 400
    ∧ (webhookHandler sampleDecodeJSON (Request.mk (Body.fresh malformedBody))
        (runningGaugeInc MetricState.zero "build")).2 = runningGaugeInc MetricState.zero "build" :=
  ⟨rfl,
    C6_undecodable_body_rejected sampleDecodeJSON (Request.mk (Body.fresh malformedBody))
      "invalid character" (runningGaugeInc MetricState.zero "build") rfl⟩

/-- C7, evaluated at a well-formed request with the unrecognized status
`queued`: whatever the JSON decoder is, the body is read without error and yet
the response is 400 with the error `Invalid payload`, not 200
`Event processed`. -/
theorem C7_decodable_request_answered_400
    (decodeJSON : String → Except String GitHubWorkflowPayload) :
    (ReadAll (Body.fresh queuedBody)).1 = .ok queuedBody
    ∧ (webhookHandler decodeJSON { Body := Body.fresh queuedBody } MetricState.zero).1
        = { status := 400, body := .json [("error", "Invalid payload")] }
    ∧ (webhookHandler decodeJSON { Body := Body.fresh queuedBody } MetricState.zero).1
        ≠ { status := 200, body := .text "Event processed" } :=
  ⟨rfl, rfl, by
    have h : (webhookHandler decodeJSON { Body := Body.fresh queuedBody }
        MetricState.zero).1 = invalidPayloadResponse := rfl
    rw [h]
    decide⟩

/-- C8, evaluated at N = 1: one `in_progress` request and one
`completed`/`success` request for `build`, handled from the all-zero state in
either order.  Whatever the JSON decoder is, the success counter of `build`
ends at 0, not at 1, although the switch, had it been reached with the two
payloads, would have left it at 1. -/
theorem C8_one_pair_not_counted
    (decodeJSON : String → Except String GitHubWorkflowPayload) :
    (handleAll decodeJSON
        [{ Body := Body.fresh inProgressBody }, { Body := Body.fresh completedSuccessBody }]
        MetricState.zero).success_count "build" = 0
    ∧ (handleAll decodeJSON
        [{ Body := Body.fresh completedSuccessBody }, { Body := Body.fresh inProgressBody }]
        MetricState.zero).success_count "build" = 0
    ∧ (switchAll [inProgressPayload, completedSuccessPayload]
        MetricState.zero).success_count "build" = 1 :=
  ⟨rfl, rfl, rfl⟩

/-- C9, evaluated at a single well-formed `completed` request for `build` on
the all-zero state, with no earlier `in_progress` request: whatever the JSON
decoder is, the running gauge of `build` stays 0, not -1, and after any
sequence of requests from the all-zero state the running gauge of every name
is 0, so no sequence of requests makes it negative; the switch, had it been
reached with this payload, would have left the gauge at -1.  The other half of
the claim holds of the handler: no call lowers a success counter or a failure
counter. -/
theorem C9_completed_request_leaves_gauge_at_zero
    (decodeJSON : String → Except String GitHubWorkflowPayload) :
    (handleAll decodeJSON [{ Body := Body.fresh completedSuccessBody }]
        MetricState.zero).running "build" = 0
    ∧ (∀ (reqs : List Request) (name : String),
        (handleAll decodeJSON reqs MetricState.zero).running name = 0)
    ∧ (statusSwitch completedSuccessPayload MetricState.zero).running "build" = -1
    ∧ (∀ (req : Request) (m : MetricState) (name : String),
        m.success_count name ≤ (webhookHandler decodeJSON req m).2.success_count name
        ∧ m.failure_count name ≤ (webhookHandler decodeJSON req m).2.failure_count name) := by
  refine ⟨rfl, ?_, rfl, ?_⟩
  · intro reqs name
    rw [handleAll_state]
    rfl
  · intro req m name
    rw [webhookHandler_state]
    exact ⟨le_refl _, le_refl _⟩

/-- C10: the handler reads the whole body with `ReadAll` and then binds from
the same stream, so for every decoder, request and metric state the bind step
fails (with the stream's own error, `EOF` on a clean end), the response is 400
with the read error when the read fails and 400 `Invalid payload` otherwise,
never 200, and the metric state is returned unchanged; no sequence of requests
changes it either. -/
theorem C10_bind_reads_exhausted_body
    (decodeJSON : String → Except String GitHubWorkflowPayload) (req : Request)
    (m : MetricState) :
    (ReadAll req.Body).2.unread = ""
    ∧ ShouldBindJSON decodeJSON (ReadAll req.Body).2 = .error (req.Body.fault.getD "EOF")
    ∧ (webhookHandler decodeJSON req m).1
        = (match req.Body.fault with
            | some err => { status := 400, body := .json [("error", err)] }
            | none => { status := 400, body := .json [("error", "Invalid payload")] })
    ∧ (webhookHandler decodeJSON req m).1.status ≠ 200
    ∧ (webhookHandler decodeJSON req m).2 = m
    ∧ (∀ reqs : List Request, handleAll decodeJSON reqs m = m) := by
  refine ⟨ReadAll_exhausts req.Body, ShouldBindJSON_after_ReadAll decodeJSON req.Body, ?_, ?_,
    webhookHandler_state decodeJSON req m, fun reqs => handleAll_state decodeJSON reqs m⟩
  · rw [webhookHandler_eq]
    cases req.Body.fault <;> rfl
  · rw [webhookHandler_status]
    decide

end GitHubEvents
